import Mathlib

/-
Verification of `install_wezterm.py`: a provisioning script that detects the
host platform, resolves a download URL from a static package catalog,
downloads and installs the artifact, and optionally installs fonts and clones
a configuration repository.

The script is shallowly embedded: each Python function becomes a Lean
function; environment interaction (filesystem reads, network downloads,
subprocess results, user input) is passed in explicitly as data; Python
exceptions become an explicit `PyError` in `Except` results.
-/

set_option autoImplicit false

namespace InstallWezterm

/-- Python exception kinds relevant to the script. -/
inductive PyError where
  | fileNotFound
  | attributeError
  | calledProcessError
  | keyboardInterrupt
  | otherError
  deriving DecidableEq, Repr

/-! ## String helpers modelling Python string methods

All helpers work on `List Char` so that they reduce by computation (the
built-in `String` operations on byte positions do not). -/

/-- Python `str.strip('"')`: remove all leading and trailing `c` characters. -/
def stripChar (c : Char) (s : String) : String :=
  String.mk (((s.toList.dropWhile (fun x => x = c)).reverse.dropWhile (fun x => x = c)).reverse)

/-- Python `str.strip()`: remove leading and trailing whitespace. -/
def pyTrim (s : String) : String :=
  String.mk (((s.toList.dropWhile Char.isWhitespace).reverse.dropWhile Char.isWhitespace).reverse)

/-- Python `str.lower()` (ASCII). -/
def pyLower (s : String) : String :=
  String.mk (s.toList.map Char.toLower)

/-- Python `str.capitalize()` (ASCII): first character uppercased, the rest lowercased. -/
def pyCapitalize (s : String) : String :=
  match s.toList with
  | [] => ""
  | c :: rest => String.mk (c.toUpper :: rest.map Char.toLower)

/-- Python `c in s` for a single character. -/
def strContains (s : String) (c : Char) : Bool :=
  s.toList.contains c

/-- Split a character list on every occurrence of `c` (Python `str.split(c)`
for a one-character separator: always at least one piece). -/
def splitOnChar (c : Char) : List Char → List (List Char)
  | [] => [[]]
  | x :: xs =>
    match splitOnChar c xs with
    | [] => [[x]]
    | h :: t => if x = c then [] :: h :: t else (x :: h) :: t

/-- Python `s.split(c)` for a one-character separator `c`. -/
def pySplit (s : String) (c : Char) : List String :=
  (splitOnChar c s.toList).map String.mk

/-- Python `s.endswith(t)`. -/
def strEndsWith (s t : String) : Bool :=
  s.toList.reverse.take t.toList.length == t.toList.reverse

/-- `pathlib.Path(url).name`: the last non-empty path component. -/
def pathName (url : String) : String :=
  ((pySplit url '/').filter (fun s => s ≠ "")).getLastD ""

/-! ## Platform detector (`get_system_info`) -/

/-- Architecture normalization from `get_system_info` (lines 41-46):
`x86_64`/`AMD64` map to `amd64`, `aarch64`/`arm64` map to `arm64`,
anything else is unresolved. -/
def arch_key (machine : String) : Option String :=
  if machine = "x86_64" ∨ machine = "AMD64" then some "amd64"
  else if machine = "aarch64" ∨ machine = "arm64" then some "arm64"
  else none

/-- One line of `/etc/os-release`, as parsed by the dict comprehension at
line 54: lines containing `=` are stripped, split on the first `=`, and the
value is stripped of double quotes; other lines are skipped. -/
def parseOsReleaseLine (line : String) : Option (String × String) :=
  if strContains line '=' then
    let stripped := pyTrim line
    let parts := pySplit stripped '='
    some (parts.headD "", stripChar '"' (String.intercalate "=" parts.tail))
  else none

/-- Python dict built by a comprehension: on duplicate keys the last binding
wins, so lookup returns the last matching value. -/
def dictLast (ps : List (String × String)) (k : String) : Option String :=
  match ps with
  | [] => none
  | (k0, v0) :: rest =>
    match dictLast rest k with
    | some v => some v
    | none => if k = k0 then some v0 else none

/-- `get_system_info()`.  Inputs stand for the host environment:
`system` is `platform.system()`, `machine` is `platform.machine()`, and
`osRelease` is the content of `/etc/os-release` as a list of lines (`none`
when opening/reading the file raises `FileNotFoundError`/`IOError`).

On Linux the `except` clause catches only `FileNotFoundError` and `IOError`;
if the file parses to a dict without an `ID` key, `os_release.get("ID")` is
`None` and `.capitalize()` raises an uncaught `AttributeError`. -/
def get_system_info (system machine : String) (osRelease : Option (List String)) :
    Except PyError (String × Option String × Option String) :=
  let arch := arch_key machine
  if system = "Darwin" then
    .ok ("macos", none, arch)
  else if system = "Linux" then
    match osRelease with
    | none => .ok ("Linux", none, arch)
    | some lines =>
      let os_release := lines.filterMap parseOsReleaseLine
      match dictLast os_release "ID" with
      | none => .error .attributeError
      | some idVal =>
        .ok (pyCapitalize idVal,
             some ((pySplit ((dictLast os_release "VERSION_ID").getD "") '.').headD ""),
             arch)
  else
    .ok (system, none, arch)

/-! ## Package catalog and resolver (`wezterm_package_urls`, `find_download_url`) -/

def urlMacosArm64 : String :=
  "https://github.com/wezterm/wezterm/releases/download/20240203-110809-5046fc22/WezTerm-macos-20240203-110809-5046fc22.zip"

def urlUbuntu22Amd64 : String :=
  "https://github.com/wezterm/wezterm/releases/download/20240203-110809-5046fc22/wezterm-20240203-110809-5046fc22.Ubuntu22.04.deb"

def urlUbuntu22Arm64 : String :=
  "https://github.com/wezterm/wezterm/releases/download/20240203-110809-5046fc22/wezterm-20240203-110809-5046fc22.Ubuntu22.04.arm64.deb"

def urlUbuntu20Amd64 : String :=
  "https://github.com/wezterm/wezterm/releases/download/20240203-110809-5046fc22/wezterm-20240203-110809-5046fc22.Ubuntu20.04.deb"

def urlDebian12Amd64 : String :=
  "https://github.com/wezterm/wezterm/releases/download/20240203-110809-5046fc22/wezterm-20240203-110809-5046fc22.Debian12.deb"

def urlDebian12Arm64 : String :=
  "https://github.com/wezterm/wezterm/releases/download/20240203-110809-5046fc22/wezterm-20240203-110809-5046fc22.Debian12.arm64.deb"

def urlDebian11Amd64 : String :=
  "https://github.com/wezterm/wezterm/releases/download/20240203-110809-5046fc22/wezterm-20240203-110809-5046fc22.Debian11.deb"

/-- A value of the top-level catalog dict: macOS maps architectures directly
to URLs; Ubuntu/Debian map version, then architecture, to URLs. -/
inductive FamilyDict where
  | byArch (d : List (String × String))
  | byVersion (d : List (String × List (String × String)))
  deriving DecidableEq, Repr

/-- Python `dict.get(k)` on a literal dict (keys distinct): first match. -/
def dget {α : Type} (d : List (String × α)) (k : String) : Option α :=
  match d with
  | [] => none
  | (k0, v) :: rest => if k = k0 then some v else dget rest k

/-- Python `dict.get(k)` where the key expression may be `None`
(`None` is never a key of these dicts). -/
def dgetOpt {α : Type} (d : List (String × α)) (k : Option String) : Option α :=
  match k with
  | none => none
  | some s => dget d s

/-- The static catalog `wezterm_package_urls` (lines 13-35). -/
def wezterm_package_urls : List (String × FamilyDict) :=
  [("macos", .byArch [("arm64", urlMacosArm64)]),
   ("Ubuntu", .byVersion
      [("22", [("amd64", urlUbuntu22Amd64), ("arm64", urlUbuntu22Arm64)]),
       ("20", [("amd64", urlUbuntu20Amd64)])]),
   ("Debian", .byVersion
      [("12", [("amd64", urlDebian12Amd64), ("arm64", urlDebian12Arm64)]),
       ("11", [("amd64", urlDebian11Amd64)])])]

/-- `find_download_url(os_name, os_version, arch, packages_dict)` (lines 61-69):
macOS looks up by architecture only; Ubuntu/Debian by version then
architecture; any other family returns `None`. -/
def find_download_url (os_name : String) (os_version arch : Option String)
    (packages_dict : List (String × FamilyDict)) : Option String :=
  if os_name = "macos" then
    match dget packages_dict "macos" with
    | some (.byArch d) => dgetOpt d arch
    | _ => none
  else if os_name = "Ubuntu" ∨ os_name = "Debian" then
    match dget packages_dict os_name with
    | some (.byVersion d) =>
      match dgetOpt d os_version with
      | some d2 => dgetOpt d2 arch
      | none => none
    | _ => none
  else
    none

/-- Modelled from the spec (§4.2): the resolver's intended input/output
relation, written as an explicit case analysis over the catalog's triples --
macOS keyed on architecture alone, Ubuntu/Debian keyed on version then
architecture, every other family not found. Used to compare
`find_download_url` against the spec's description. -/
def resolver_spec (os_name : String) (os_version arch : Option String) : Option String :=
  if os_name = "macos" then
    if arch = some "arm64" then some urlMacosArm64 else none
  else if os_name = "Ubuntu" then
    if os_version = some "22" then
      if arch = some "amd64" then some urlUbuntu22Amd64
      else if arch = some "arm64" then some urlUbuntu22Arm64
      else none
    else if os_version = some "20" then
      if arch = some "amd64" then some urlUbuntu20Amd64 else none
    else none
  else if os_name = "Debian" then
    if os_version = some "12" then
      if arch = some "amd64" then some urlDebian12Amd64
      else if arch = some "arm64" then some urlDebian12Arm64
      else none
    else if os_version = some "11" then
      if arch = some "amd64" then some urlDebian11Amd64 else none
    else none
  else none

/-! ## Installer (`download_and_install`) -/

/-- Outcome of `urllib.request.urlretrieve`: success, an exception after a
(partial) file was created, or an exception with no file created. -/
inductive DlResult where
  | ok
  | errFile
  | errNoFile
  deriving DecidableEq, Repr

/-- Outcome of a `subprocess.run(..., check=True)` call: normal return or
`CalledProcessError` raised. -/
inductive SubpR where
  | ok
  | exc
  deriving DecidableEq, Repr

/-- The environment-dependent outcomes the installer can encounter: the
download result, whether the host is Darwin, the `apt-get` subprocess result,
whether `zipfile` extraction succeeds, whether a `.app` bundle is found in
the extracted directory, whether a bundle already exists at the destination,
and the `rm`/`mv` subprocess results. -/
structure InstallEff where
  download : DlResult
  systemIsDarwin : Bool
  aptResult : SubpR
  extractOk : Bool
  appFound : Bool
  destExists : Bool
  rmResult : SubpR
  mvResult : SubpR
  deriving DecidableEq, Repr

/-- State of the `try` body of `download_and_install` at the moment control
reaches the `finally` clause. -/
structure TryOut where
  success : Bool
  fileExists : Bool
  aptInvoked : Bool
  archiveInstalled : Bool
  deriving DecidableEq, Repr

/-- The `try` body of `download_and_install` (lines 77-105): download the
file, then dispatch on the filename suffix and host OS. `success = false`
means an exception was raised and caught by the `except` clause.
`fileExists` tracks whether the downloaded file is on disk. -/
def install_try_body (fileName : String) (eff : InstallEff) : TryOut :=
  match eff.download with
  | .errNoFile => ⟨false, false, false, false⟩
  | .errFile => ⟨false, true, false, false⟩
  | .ok =>
    if strEndsWith fileName ".deb" then
      match eff.aptResult with
      | .ok => ⟨true, true, true, false⟩
      | .exc => ⟨false, true, true, false⟩
    else if strEndsWith fileName ".zip" ∧ eff.systemIsDarwin then
      if ¬eff.extractOk then ⟨false, true, false, false⟩
      else if ¬eff.appFound then ⟨false, true, false, false⟩
      else if eff.destExists then
        match eff.rmResult with
        | .exc => ⟨false, true, false, false⟩
        | .ok =>
          match eff.mvResult with
          | .ok => ⟨true, true, false, true⟩
          | .exc => ⟨false, true, false, false⟩
      else
        match eff.mvResult with
        | .ok => ⟨true, true, false, true⟩
        | .exc => ⟨false, true, false, false⟩
    else
      ⟨true, true, false, false⟩

/-- Result of `download_and_install`: the returned boolean, whether the
downloaded artifact still exists on disk after the call, and which install
actions were taken. -/
structure InstallOutcome where
  result : Bool
  artifactExists : Bool
  aptInvoked : Bool
  archiveInstalled : Bool
  deriving DecidableEq, Repr

/-- `download_and_install(url)` (lines 71-109). An empty URL is falsy in
Python, so `if not url` returns `False` before the `try` block (no file, no
cleanup). Otherwise the `try` body runs and the `finally` clause deletes the
downloaded file if it exists. -/
def download_and_install (url : String) (eff : InstallEff) : InstallOutcome :=
  if url = "" then
    ⟨false, false, false, false⟩
  else
    let b := install_try_body (pathName url) eff
    ⟨b.success, if b.fileExists then false else b.fileExists,
     b.aptInvoked, b.archiveInstalled⟩

/-! ## Post-install configurator (`apply_wezterm_configuration`) -/

/-- The filesystem locations the configuration-clone phase touches: the
config directory `~/.config/wezterm` and the backup directory
`~/.config/wezterm.bak` (`config_dir.with_suffix(".bak")`), each holding
some directory contents or absent. -/
structure CfgFS (α : Type) where
  config : Option α
  backup : Option α
  deriving DecidableEq, Repr

/-- The configuration-clone step (lines 186-204): if `git` is present, and a
config directory exists, delete any prior backup, rename the config
directory to the backup path, then run `git clone`; a clone failure is
caught. Returns the new filesystem state and whether the clone subprocess
was invoked. -/
def clone_config {α : Type} (gitPresent : Bool) (cloneResult : SubpR) (newRepo : α)
    (fs : CfgFS α) : CfgFS α × Bool :=
  if gitPresent then
    let fs1 :=
      match fs.config with
      | some c =>
        -- `shutil.rmtree(backup_dir)` when it exists clears the backup slot,
        -- then `shutil.move(config_dir, backup_dir)` renames onto the now
        -- vacant path: the backup ends up holding the old config contents
        (⟨none, some c⟩ : CfgFS α)
      | none => fs
    match cloneResult with
    | .ok => (⟨some newRepo, fs1.backup⟩, true)
    | .exc => (fs1, true)
  else
    (fs, false)

/-- Environment for `apply_wezterm_configuration`: the host OS name, whether
the JetBrainsMono download/extract steps raise, whether the Fandol
download steps raise, whether `git` is on the PATH, the `git clone`
subprocess result, and the cloned repository contents. -/
structure CfgEnv (α : Type) where
  system : String
  jetFault : Bool
  fandolFault : Bool
  gitPresent : Bool
  cloneResult : SubpR
  newRepo : α
  deriving DecidableEq, Repr

/-- Observable outcome of `apply_wezterm_configuration`. -/
structure CfgOutcome (α : Type) where
  fontDirResolved : Bool
  jetInstalled : Bool
  fandolAttempted : Bool
  fandolInstalled : Bool
  cloneAttempted : Bool
  fs : CfgFS α
  deriving DecidableEq, Repr

/-- `apply_wezterm_configuration()` (lines 111-209). The font phase runs only
on Linux/Darwin; inside it the JetBrainsMono steps run first and the Fandol
steps second, all under one `try`, so a fault in the JetBrainsMono steps
skips the Fandol steps, and any fault is caught by the `except` at line 183.
The clone phase then runs (if `git` exists) with its own `try`/`except`.
No exception escapes the function. -/
def apply_wezterm_configuration {α : Type} (env : CfgEnv α) (fs : CfgFS α) :
    Except PyError (CfgOutcome α) :=
  let fontDir := env.system == "Linux" || env.system == "Darwin"
  let jetInstalled := fontDir && !env.jetFault
  let fandolAttempted := fontDir && !env.jetFault
  let fandolInstalled := fontDir && !env.jetFault && !env.fandolFault
  let out := clone_config env.gitPresent env.cloneResult env.newRepo fs
  .ok ⟨fontDir, jetInstalled, fandolAttempted, fandolInstalled, out.2, out.1⟩

/-! ## Main flow (`__main__`, lines 211-234) -/

/-- Host environment for one run of the script. -/
structure MainEnv where
  system : String
  machine : String
  osRelease : Option (List String)
  eff : InstallEff
  userInput : Option String
  deriving DecidableEq, Repr

/-- Observable outcome of the `__main__` block: the process exit status,
whether a download was attempted, whether the installer returned success,
and whether the configuration phase ran. -/
structure MainResult where
  exitCode : Nat
  downloadAttempted : Bool
  installSucceeded : Bool
  configApplied : Bool
  deriving DecidableEq, Repr

/-- The `__main__` block (lines 211-234): detect, resolve, install, then
prompt. `userInput = none` stands for a `KeyboardInterrupt` at the prompt,
which is caught and skips the configuration. An exception escaping
`get_system_info` crashes the process (`.error`). -/
def main_script (env : MainEnv) : Except PyError MainResult :=
  match get_system_info env.system env.machine env.osRelease with
  | .error e => .error e
  | .ok (os_name, os_version, arch) =>
    match arch with
    | none => .ok ⟨1, false, false, false⟩
    | some a =>
      match find_download_url os_name os_version (some a) wezterm_package_urls with
      | none => .ok ⟨1, false, false, false⟩
      | some url =>
        let out := download_and_install url env.eff
        if out.result then
          match env.userInput with
          | none => .ok ⟨0, true, true, false⟩
          | some s =>
            if pyLower s = "y" then .ok ⟨0, true, true, true⟩
            else .ok ⟨0, true, true, false⟩
        else
          .ok ⟨0, true, false, false⟩

/-- An installer environment in which every step succeeds (host not Darwin). -/
def effOk : InstallEff :=
  ⟨.ok, false, .ok, true, true, false, .ok, .ok⟩

/-- An installer environment on Darwin in which every step succeeds. -/
def effOkDarwin : InstallEff :=
  ⟨.ok, true, .ok, true, true, false, .ok, .ok⟩

/-- An installer environment in which the download raises without creating a
file. -/
def effDownloadFail : InstallEff :=
  ⟨.errNoFile, true, .ok, true, true, false, .ok, .ok⟩

/-! ## Theorems -/

/-- C2: for every (family, version, architecture) triple, `find_download_url`
on the static catalog returns exactly what the spec's lookup discipline
prescribes: macOS keyed on architecture alone, Ubuntu/Debian keyed on
version then architecture, the catalog's URL for present triples and `none`
for absent triples, with any other family not found unconditionally. -/
theorem find_download_url_matches_spec :
    ∀ (f : String) (v a : Option String),
      find_download_url f v a wezterm_package_urls = resolver_spec f v a := by
  intro f v a
  by_cases hm : f = "macos"
  · subst hm
    cases a with
    | none => rfl
    | some s =>
      by_cases hs : s = "arm64" <;>
        simp [find_download_url, resolver_spec, wezterm_package_urls, dget, dgetOpt, hs]
  · by_cases hu : f = "Ubuntu"
    · subst hu
      cases v with
      | none => cases a <;> rfl
      | some vs =>
        cases a with
        | none =>
          by_cases h2 : vs = "22" <;> by_cases h0 : vs = "20" <;>
            simp_all [find_download_url, resolver_spec, wezterm_package_urls, dget, dgetOpt]
        | some s =>
          by_cases h2 : vs = "22" <;> by_cases h0 : vs = "20" <;>
            by_cases sa : s = "amd64" <;> by_cases sr : s = "arm64" <;>
              simp_all [find_download_url, resolver_spec, wezterm_package_urls, dget, dgetOpt]
    · by_cases hd : f = "Debian"
      · subst hd
        cases v with
        | none => cases a <;> rfl
        | some vs =>
          cases a with
          | none =>
            by_cases h2 : vs = "12" <;> by_cases h0 : vs = "11" <;>
              simp_all [find_download_url, resolver_spec, wezterm_package_urls, dget, dgetOpt]
          | some s =>
            by_cases h2 : vs = "12" <;> by_cases h0 : vs = "11" <;>
              by_cases sa : s = "amd64" <;> by_cases sr : s = "arm64" <;>
                simp_all [find_download_url, resolver_spec, wezterm_package_urls, dget, dgetOpt]
      · simp [find_download_url, resolver_spec, hm, hu, hd]

/-- C3: for every URL and every installer outcome (success, download failure,
subprocess failure, missing bundle), no downloaded artifact file remains on
disk after `download_and_install` returns: the `finally` clause deletes it
on every exit path that entered the `try`, and the early-return path never
creates one. -/
theorem download_and_install_cleanup :
    ∀ (url : String) (eff : InstallEff),
      (download_and_install url eff).artifactExists = false := by
  intro url eff
  unfold download_and_install
  by_cases h : url = ""
  · simp [h]
  · simp only [h, if_false]
    cases hb : (install_try_body (pathName url) eff).fileExists <;> simp [hb]

/-- C5: when the download succeeds but the filename suffix and host OS match
neither the `.deb` path nor the `.zip`-on-Darwin path, no install action is
taken and the call still returns success. -/
theorem install_noop_success (url : String) (eff : InstallEff)
    (h1 : url ≠ "") (h2 : eff.download = .ok)
    (h3 : ¬strEndsWith (pathName url) ".deb")
    (h4 : ¬(strEndsWith (pathName url) ".zip" ∧ eff.systemIsDarwin)) :
    download_and_install url eff = ⟨true, false, false, false⟩ := by
  unfold download_and_install install_try_body
  simp [h1, h2, h3, h4]

/-- Witness for C5: a `.tar.gz` artifact on a non-Darwin host installs
nothing yet reports success. -/
theorem install_noop_success_witness :
    download_and_install "https://example.com/wezterm.tar.gz" effOk =
      ⟨true, false, false, false⟩ :=
  install_noop_success "https://example.com/wezterm.tar.gz" effOk
    (by decide) rfl (by decide) (by decide)

/-- C1 counterexample: the two failure exits are NOT distinct. On a host
whose architecture cannot be resolved (`riscv64`) and on a host whose
resolved platform has no catalog entry (Linux with `ID=arch`), the process
exits with the same status `1`, so the two exit statuses are not
distinguishable as the claim asserts. -/
theorem exit_codes_not_distinct :
    main_script ⟨"Linux", "riscv64", none, effOk, none⟩ =
      .ok ⟨1, false, false, false⟩ ∧
    main_script ⟨"Linux", "x86_64", some ["ID=arch"], effOk, none⟩ =
      .ok ⟨1, false, false, false⟩ ∧
    (main_script ⟨"Linux", "riscv64", none, effOk, none⟩).map MainResult.exitCode =
      (main_script ⟨"Linux", "x86_64", some ["ID=arch"], effOk, none⟩).map
        MainResult.exitCode :=
  ⟨rfl, rfl, rfl⟩

/-- C1 amended: the process exits with the non-zero status `1` when the
architecture cannot be resolved and with the non-zero status `1` when no
catalog entry matches the resolved platform; both failure exits use the same
status `1`, so they are not distinguishable by exit code. -/
theorem exit_one_on_detect_or_resolve_failure (env : MainEnv) (f : String)
    (v : Option String) :
    (get_system_info env.system env.machine env.osRelease = .ok (f, v, none) →
      main_script env = .ok ⟨1, false, false, false⟩) ∧
    (∀ a, get_system_info env.system env.machine env.osRelease = .ok (f, v, some a) →
      find_download_url f v (some a) wezterm_package_urls = none →
      main_script env = .ok ⟨1, false, false, false⟩) := by
  constructor
  · intro h
    unfold main_script
    rw [h]
  · intro a h hf
    unfold main_script
    rw [h]
    dsimp only
    rw [hf]

/-- Witness for the amended C1: one concrete detection failure and one
concrete resolution failure, both exiting with status 1. -/
theorem exit_one_witness :
    main_script ⟨"Linux", "sparc", none, effOk, none⟩ = .ok ⟨1, false, false, false⟩ ∧
    main_script ⟨"FreeBSD", "x86_64", none, effOk, none⟩ = .ok ⟨1, false, false, false⟩ :=
  ⟨(exit_one_on_detect_or_resolve_failure ⟨"Linux", "sparc", none, effOk, none⟩
      "Linux" none).1 rfl,
   (exit_one_on_detect_or_resolve_failure ⟨"FreeBSD", "x86_64", none, effOk, none⟩
      "FreeBSD" none).2 "amd64" rfl rfl⟩

/-- C4 counterexample: a readable `/etc/os-release` without an `ID` entry
does not fall back to `"Linux"`; `os_release.get("ID")` is `None` and
`.capitalize()` raises an uncaught `AttributeError`, so the detector
propagates an exception. -/
theorem malformed_os_release_raises :
    get_system_info "Linux" "x86_64" (some ["PRETTY_NAME=\"Foo\""]) =
      .error .attributeError :=
  rfl

/-- C4 amended: on Linux the generic `"Linux"`/no-version fallback applies
exactly when the OS-release file is missing or unreadable
(`FileNotFoundError`/`IOError`); a readable file whose parsed dict lacks an
`ID` entry instead raises an uncaught `AttributeError`. -/
theorem os_release_fallback (machine : String) :
    (get_system_info "Linux" machine none = .ok ("Linux", none, arch_key machine)) ∧
    (∀ lines, dictLast (lines.filterMap parseOsReleaseLine) "ID" = none →
      get_system_info "Linux" machine (some lines) = .error .attributeError) := by
  constructor
  · rfl
  · intro lines h
    unfold get_system_info
    dsimp only
    rw [if_neg (by decide), if_pos rfl, h]

/-- Witness for the amended C4: a missing file falls back to `"Linux"`, and
a file with no `ID` entry raises. -/
theorem os_release_fallback_witness :
    (get_system_info "Linux" "x86_64" none = .ok ("Linux", none, arch_key "x86_64")) ∧
    get_system_info "Linux" "x86_64" (some ["FOO=1"]) = .error .attributeError :=
  ⟨(os_release_fallback "x86_64").1,
   (os_release_fallback "x86_64").2 ["FOO=1"] (by decide)⟩

/-- C6: if a config directory with contents `c` exists before the clone
step, the step (prior backup deleted, config renamed to the backup path)
leaves the backup holding exactly `c` -- whatever backup existed before and
however the clone subprocess ends -- and on a successful clone the config
directory holds the fresh repository. Re-applying the theorem to a second
run shows the backup is replaced, never accumulated. -/
theorem clone_config_backup {α : Type} (fs : CfgFS α) (c : α) (res : SubpR)
    (nr : α) (h : fs.config = some c) :
    ((clone_config true res nr fs).1.backup = some c) ∧
    (res = .ok → (clone_config true res nr fs).1.config = some nr) := by
  unfold clone_config
  cases res <;> simp [h]

/-- Witness for C6: a pre-existing config `5` and stale backup `3`; after a
successful clone of repo `7`, the backup holds `5` and the config holds `7`. -/
theorem clone_config_backup_witness :
    ((clone_config true .ok 7 (⟨some 5, some 3⟩ : CfgFS Nat)).1.backup = some 5) ∧
    (SubpR.ok = SubpR.ok →
      (clone_config true .ok 7 (⟨some 5, some 3⟩ : CfgFS Nat)).1.config = some 7) :=
  clone_config_backup ⟨some 5, some 3⟩ 5 .ok 7 rfl

/-- C7: the architecture map yields `amd64` exactly on `x86_64`/`AMD64`,
`arm64` exactly on `aarch64`/`arm64`, and is unresolved on every other
string; and whenever the detector reports an unresolved architecture the
process exits with status 1 (the unrecognized-architecture exit) without
attempting a download. -/
theorem arch_key_spec :
    (∀ m, (arch_key m = some "amd64" ↔ (m = "x86_64" ∨ m = "AMD64")) ∧
          (arch_key m = some "arm64" ↔ (m = "aarch64" ∨ m = "arm64")) ∧
          (arch_key m = none ↔
            (¬(m = "x86_64" ∨ m = "AMD64") ∧ ¬(m = "aarch64" ∨ m = "arm64")))) ∧
    (∀ (env : MainEnv) (f : String) (v : Option String),
      get_system_info env.system env.machine env.osRelease = .ok (f, v, none) →
      main_script env = .ok ⟨1, false, false, false⟩) := by
  constructor
  · intro m
    by_cases e1 : m = "x86_64" <;> by_cases e2 : m = "AMD64" <;>
      by_cases e3 : m = "aarch64" <;> by_cases e4 : m = "arm64" <;>
        simp_all [arch_key]
  · intro env f v h
    unfold main_script
    rw [h]

/-- Witness for C7: `sparc` resolves to no architecture and the run exits
with status 1, download never attempted. -/
theorem arch_key_spec_witness :
    arch_key "sparc" = none ∧
    main_script ⟨"Linux", "sparc", none, effOk, none⟩ = .ok ⟨1, false, false, false⟩ :=
  ⟨((arch_key_spec.1 "sparc").2.2).mpr (by decide),
   arch_key_spec.2 ⟨"Linux", "sparc", none, effOk, none⟩ "Linux" none rfl⟩

/-- C8: when the installer returns failure the process still exits with
status zero; a non-zero exit happens only before any download is attempted
(detection or resolution failure). -/
theorem installer_failure_exits_zero (env : MainEnv) (r : MainResult)
    (h : main_script env = .ok r) :
    (r.installSucceeded = false → r.downloadAttempted = true → r.exitCode = 0) ∧
    (r.exitCode ≠ 0 → r.downloadAttempted = false ∧ r.installSucceeded = false ∧
      r.configApplied = false) := by
  unfold main_script at h
  repeat' split at h
  all_goals (try (dsimp only at h))
  all_goals repeat' split at h
  all_goals (try simp only [Except.ok.injEq] at h)
  all_goals (try subst h)
  all_goals simp_all

/-- Witness for C8: a failed download on macOS/arm64 still exits zero. -/
theorem installer_failure_exits_zero_witness :
    main_script ⟨"Darwin", "arm64", none, effDownloadFail, some "y"⟩ =
      .ok ⟨0, true, false, false⟩ ∧
    (⟨0, true, false, false⟩ : MainResult).exitCode = 0 :=
  ⟨rfl, (installer_failure_exits_zero ⟨"Darwin", "arm64", none, effDownloadFail, some "y"⟩
      ⟨0, true, false, false⟩ rfl).1 rfl rfl⟩

/-- C9: `apply_wezterm_configuration` never lets a fault escape (`.ok` on
every environment); the clone subprocess is attempted exactly when `git` is
present, independent of font-phase faults; and a fault in the first font
family's steps abandons the rest of the font phase. -/
theorem apply_configuration_contains_faults {α : Type} (env : CfgEnv α) (fs : CfgFS α) :
    ∃ out, apply_wezterm_configuration env fs = .ok out ∧
      out.cloneAttempted = env.gitPresent ∧
      (env.jetFault = true → out.fandolAttempted = false ∧ out.fandolInstalled = false) := by
  obtain ⟨sys, jf, ff, git, cr, nr⟩ := env
  unfold apply_wezterm_configuration clone_config
  cases git <;> cases cr <;> cases hc : fs.config <;> cases jf <;> simp_all

/-- Witness for C9: a JetBrainsMono fault on Linux with `git` present: the
call returns normally, the clone is still attempted, the Fandol steps are
skipped. -/
theorem apply_configuration_contains_faults_witness :
    ∃ out, apply_wezterm_configuration (α := Nat) ⟨"Linux", true, false, true, .ok, 7⟩
        ⟨some 5, some 3⟩ = .ok out ∧
      out.cloneAttempted = true ∧
      (true = true → out.fandolAttempted = false ∧ out.fandolInstalled = false) :=
  apply_configuration_contains_faults ⟨"Linux", true, false, true, .ok, 7⟩ ⟨some 5, some 3⟩

/-- C10: after a successful installation, the configuration phase runs iff
the prompt response, lowercased, is exactly `"y"`; any other response
(including an interrupt, modelled as `none`) skips it. -/
theorem prompt_gating (env : MainEnv) (r : MainResult)
    (h : main_script env = .ok r) (hs : r.installSucceeded = true) :
    (r.configApplied = true ↔ ∃ s, env.userInput = some s ∧ pyLower s = "y") := by
  unfold main_script at h
  repeat' split at h
  all_goals (try (dsimp only at h))
  all_goals repeat' split at h
  all_goals (try simp only [Except.ok.injEq] at h)
  all_goals (try subst h)
  all_goals simp_all

/-- Witness for C10: answering `"Y"` (lowercases to `"y"`) after a
successful macOS install runs the configuration phase. -/
theorem prompt_gating_witness :
    main_script ⟨"Darwin", "arm64", none, effOkDarwin, some "Y"⟩ =
      .ok ⟨0, true, true, true⟩ ∧
    (⟨0, true, true, true⟩ : MainResult).configApplied = true :=
  ⟨rfl, (prompt_gating ⟨"Darwin", "arm64", none, effOkDarwin, some "Y"⟩
      ⟨0, true, true, true⟩ rfl rfl).mpr ⟨"Y", rfl, rfl⟩⟩

end InstallWezterm
